import Mathlib

/-!
Shallow embedding of the cookie-licking detection backend
(`ratinto/cookies-backend`), covering the claim pattern detector
(`src/api/services/github_service.py`, `CookieLickingDetector`), the trust
score engine (`src/api/services/real_github_service.py`,
`TrustScoreCalculator`), the activity analyzer
(`src/api/github_service.py`, `ActivityAnalyzer`), and the reminder /
unassignment views over the detection records
(`src/api/real_views.py`, `src/api/models.py`).
-/

/-- Word character, as in Python's `\w` for the ASCII texts handled here:
letters, digits and underscore. -/
def isWordChar (c : Char) : Bool := c.isAlphanum || c == '_'

/-- Whitespace character, as in Python's `\s` on ASCII: space, tab, newline,
carriage return, vertical tab (11) and form feed (12). -/
def isSpaceChar (c : Char) : Bool :=
  c == ' ' || c == '\t' || c == '\n' || c == '\r' ||
  c == Char.ofNat 11 || c == Char.ofNat 12

/-- Regular expression abstract syntax covering exactly the constructs used by
the claiming patterns in `CookieLickingDetector.claiming_patterns`:
literal characters, `.`, `\w`, `\s`, `\b`, concatenation, alternation and
Kleene star (`?` and `+` are derived forms). -/
inductive Regex where
  | eps : Regex
  | lit : Char → Regex
  | dot : Regex
  | wordC : Regex
  | spaceC : Regex
  | boundary : Regex
  | seq : Regex → Regex → Regex
  | alt : Regex → Regex → Regex
  | star : Regex → Regex
deriving DecidableEq

/-- Is position `i` of `t` occupied by a word character (false out of range)? -/
def wordAt (t : List Char) (i : Nat) : Bool :=
  match t[i]? with
  | some d => isWordChar d
  | none => false

/-- End positions reachable by iterating a step function (the star of a regex)
from position `i`; every iteration must consume at least one character, which
matches the set of end positions Python's `re` can reach, since an iteration
of a starred subpattern that consumes nothing does not move the position. -/
def starEnds (f : Nat → List Nat) : Nat → Nat → List Nat
  | 0, i => [i]
  | fuel + 1, i =>
      i :: (((f i).filter (fun e => i < e)).map (fun e => starEnds f fuel e)).flatten

/-- End positions of matches of regex `r` in text `t` starting at position
`i`, Python `re` semantics (without `DOTALL`, so `.` excludes newline; `\b`
tests word characters on the two sides of the position). -/
def matchEnds : Regex → List Char → Nat → List Nat
  | .eps, _, i => [i]
  | .lit c, t, i =>
      match t[i]? with
      | some d => if d == c then [i + 1] else []
      | none => []
  | .dot, t, i =>
      match t[i]? with
      | some d => if d == '\n' then [] else [i + 1]
      | none => []
  | .wordC, t, i =>
      match t[i]? with
      | some d => if isWordChar d then [i + 1] else []
      | none => []
  | .spaceC, t, i =>
      match t[i]? with
      | some d => if isSpaceChar d then [i + 1] else []
      | none => []
  | .boundary, t, i =>
      let before := match i with
        | 0 => false
        | j + 1 => wordAt t j
      if before == wordAt t i then [] else [i]
  | .seq r1 r2, t, i => ((matchEnds r1 t i).map (fun j => matchEnds r2 t j)).flatten
  | .alt r1 r2, t, i => matchEnds r1 t i ++ matchEnds r2 t i
  | .star r, t, i => starEnds (fun j => matchEnds r t j) (t.length + 1) i

/-- Python's `re.search`: does `r` match somewhere in `t`? -/
def rsearch (r : Regex) (t : List Char) : Bool :=
  (List.range (t.length + 1)).any (fun i => !(matchEnds r t i).isEmpty)

/-- Concatenation of single-character regexes for a literal string. -/
def rstr (s : String) : Regex :=
  s.data.foldr (fun c r => Regex.seq (Regex.lit c) r) Regex.eps

/-- Derived form: `r?`. -/
def ropt (r : Regex) : Regex := Regex.alt r Regex.eps

/-- Derived form: `r+`. -/
def rplus (r : Regex) : Regex := Regex.seq r (Regex.star r)

/-- Pattern `\b(i'll take this|taking this|i can do this|let me handle|working on this)\b`
(`claiming_patterns[0]`). -/
def claimPattern1 : Regex :=
  Regex.seq Regex.boundary (Regex.seq
    (Regex.alt (rstr "i'll take this") (Regex.alt (rstr "taking this")
      (Regex.alt (rstr "i can do this") (Regex.alt (rstr "let me handle")
        (rstr "working on this")))))
    Regex.boundary)

/-- Pattern `\b(assigning? (this )?to myself|self[- ]assign)\b`
(`claiming_patterns[1]`). -/
def claimPattern2 : Regex :=
  Regex.seq Regex.boundary (Regex.seq
    (Regex.alt
      (Regex.seq (rstr "assignin") (Regex.seq (ropt (Regex.lit 'g'))
        (Regex.seq (Regex.lit ' ') (Regex.seq (ropt (rstr "this "))
          (rstr "to myself")))))
      (Regex.seq (rstr "self") (Regex.seq
        (Regex.alt (Regex.lit '-') (Regex.lit ' ')) (rstr "assign"))))
    Regex.boundary)

/-- Pattern `\b(i'm on it|got it|i'll fix)\b` (`claiming_patterns[2]`). -/
def claimPattern3 : Regex :=
  Regex.seq Regex.boundary (Regex.seq
    (Regex.alt (rstr "i'm on it") (Regex.alt (rstr "got it") (rstr "i'll fix")))
    Regex.boundary)

/-- Pattern `\b(claiming|claim)\b` (`claiming_patterns[3]`). -/
def claimPattern4 : Regex :=
  Regex.seq Regex.boundary (Regex.seq
    (Regex.alt (rstr "claiming") (rstr "claim"))
    Regex.boundary)

/-- Pattern `@\w+\s+(can i|may i|could i).*(take|work on|handle)`
(`claiming_patterns[4]`). -/
def claimPattern5 : Regex :=
  Regex.seq (Regex.lit '@') (Regex.seq (rplus Regex.wordC)
    (Regex.seq (rplus Regex.spaceC)
      (Regex.seq (Regex.alt (rstr "can i") (Regex.alt (rstr "may i") (rstr "could i")))
        (Regex.seq (Regex.star Regex.dot)
          (Regex.alt (rstr "take") (Regex.alt (rstr "work on") (rstr "handle")))))))

/-- Pattern `\b(i will|i'll)\s+(work on|fix|handle|take care of)\b`
(`claiming_patterns[5]`). -/
def claimPattern6 : Regex :=
  Regex.seq Regex.boundary (Regex.seq
    (Regex.alt (rstr "i will") (rstr "i'll"))
    (Regex.seq (rplus Regex.spaceC)
      (Regex.seq
        (Regex.alt (rstr "work on") (Regex.alt (rstr "fix")
          (Regex.alt (rstr "handle") (rstr "take care of"))))
        Regex.boundary)))

/-- The fixed six-element claiming-pattern configuration list
(`CookieLickingDetector.claiming_patterns`,
`src/api/services/github_service.py` lines 144-151). -/
def claiming_patterns : List Regex :=
  [claimPattern1, claimPattern2, claimPattern3, claimPattern4,
   claimPattern5, claimPattern6]

/-- Python `str.lower()` on the ASCII texts handled here, as a character
list. -/
def lowerChars (s : String) : List Char := s.data.map Char.toLower

/-- Embedding of `CookieLickingDetector.detect_claiming_patterns`: lowercase
the comment body and collect, in configuration order, every pattern that
matches somewhere in it (the code appends the pattern itself as the match
identifier). -/
def detect_claiming_patterns (comment_body : String) : List Regex :=
  claiming_patterns.filter (fun p => rsearch p (lowerChars comment_body))

/-- Dynamically typed payload handed to the detector (Python is duck-typed:
`detect_claiming_patterns` receives whatever `comment.get('body')` held). -/
inductive PyVal where
  | str : String → PyVal
  | int : Int → PyVal
  | pyNone : PyVal
deriving DecidableEq

/-- Python's `comment_body.lower()`: lowercases a string, raises
`AttributeError` on any non-string value (integers and `None` have no
`lower` method). -/
def py_lower : PyVal → Except String String
  | .str s => .ok (String.mk (lowerChars s))
  | .int _ => .error "AttributeError: int object has no attribute lower"
  | .pyNone => .error "AttributeError: NoneType object has no attribute lower"

/-- Embedding of `detect_claiming_patterns` as invoked on a raw payload: the
first statement of the Python body is `comment_body.lower()`, so a non-string
payload raises before any matching happens; a string payload is matched
normally. -/
def detect_claiming_patterns_py (comment_body : PyVal) : Except String (List Regex) :=
  match py_lower comment_body with
  | .error e => .error e
  | .ok low => .ok (claiming_patterns.filter (fun p => rsearch p low.data))

/-- One GitHub event as consumed by `TrustScoreCalculator.calculate_trust_score`:
`event.get('type')` (absent key gives `None`) and the `created_at` timestamp,
already parsed to seconds; `none` stands for a missing or malformed timestamp,
which the code's bare `try`/`except` skips. -/
structure GHEvent where
  type : Option String
  createdAt : Option Int
deriving DecidableEq

/-- Seconds in a day, for the 7-day recency window and the 3-day grace
period. -/
def secondsPerDay : Int := 86400

/-- Additive weight of one event kind in `calculate_trust_score`: PushEvent 3,
PullRequestEvent 2, IssueCommentEvent 2, everything else (including a missing
type) 0. -/
def eventPoints (e : GHEvent) : Int :=
  match e.type with
  | some t =>
      if t == "PushEvent" then 3
      else if t == "PullRequestEvent" then 2
      else if t == "IssueCommentEvent" then 2
      else 0
  | none => 0

/-- Did this event happen strictly after the 7-days-ago cutoff
(`event_date > seven_days_ago`)? A missing or malformed timestamp never
counts as recent (the `except: pass` branch). -/
def eventIsRecent (sevenDaysAgo : Int) (e : GHEvent) : Bool :=
  match e.createdAt with
  | some d => decide (sevenDaysAgo < d)
  | none => false

/-- Accumulator of the `for event in recent_events` loop in
`calculate_trust_score`: running score, per-kind counts and the
recent-activity flag. -/
structure LoopState where
  score : Int
  push_count : Nat
  pr_count : Nat
  comment_count : Nat
  has_recent_activity : Bool
deriving DecidableEq

/-- One iteration of the scoring loop: maybe set the recency flag from the
event date, then award points by event type, mirroring the Python statement
order. -/
def stepEvent (sevenDaysAgo : Int) (s : LoopState) (e : GHEvent) : LoopState :=
  let s1 := if eventIsRecent sevenDaysAgo e then
      { s with has_recent_activity := true } else s
  match e.type with
  | some t =>
      if t == "PushEvent" then
        { s1 with score := s1.score + 3, push_count := s1.push_count + 1 }
      else if t == "PullRequestEvent" then
        { s1 with score := s1.score + 2, pr_count := s1.pr_count + 1 }
      else if t == "IssueCommentEvent" then
        { s1 with score := s1.score + 2, comment_count := s1.comment_count + 1 }
      else s1
  | none => s1

/-- Tag ladder at the end of `calculate_trust_score`: over 10 reliable,
5 to 10 active, otherwise inactive. -/
def assignTag (score : Int) : String :=
  if 10 < score then "Reliable Contributor"
  else if 5 ≤ score ∧ score ≤ 10 then "Active Contributor"
  else "Inactive / Needs Follow-up"

/-- The success payload of `calculate_trust_score`. -/
structure TrustResult where
  trust_score : Int
  tag : String
  push_count : Nat
  pr_count : Nat
  comment_count : Nat
  has_recent_activity : Bool
  total_events_analyzed : Nat
deriving DecidableEq

/-- Embedding of `TrustScoreCalculator.calculate_trust_score`
(`src/api/services/real_github_service.py` lines 219-299): an empty event
list returns the error dict `{'success': False, 'error': 'No events found
for user ...'}`; otherwise only the 10 most recent events are examined, each
event adds its kind's points, and a flat 3 is subtracted when no examined
event is within the last 7 days. No clamping is performed. -/
def calculate_trust_score (username : String) (now : Int) (events : List GHEvent) :
    Except String TrustResult :=
  if events.isEmpty then
    .error ("No events found for user " ++ username)
  else
    let recent_events := events.take 10
    let seven_days_ago := now - 7 * secondsPerDay
    let final := recent_events.foldl (stepEvent seven_days_ago) ⟨0, 0, 0, 0, false⟩
    let score := if final.has_recent_activity then final.score else final.score - 3
    .ok { trust_score := score
          tag := assignTag score
          push_count := final.push_count
          pr_count := final.pr_count
          comment_count := final.comment_count
          has_recent_activity := final.has_recent_activity
          total_events_analyzed := recent_events.length }

/-- The fixed base constant of the scoring formula: the Python loop starts
from `score = 0`. -/
def base_score_constant : Int := 0

/-- The recent-activity signal as a direct formula over the examined events:
some examined event lies within the 7-day window. -/
def specHasRecentActivity (now : Int) (events : List GHEvent) : Bool :=
  (events.take 10).any (eventIsRecent (now - 7 * secondsPerDay))

/-- The scoring formula as the spec states it: base constant, plus the sum of
per-event-kind weights over the examined events, minus a flat penalty of 3
exactly when there is no recent activity. -/
def spec_trust_score (now : Int) (events : List GHEvent) : Int :=
  base_score_constant + ((events.take 10).map eventPoints).sum -
    (if specHasRecentActivity now events then 0 else 3)

/-- One GitHub event as consumed by `ActivityAnalyzer`
(`src/api/github_service.py`): there the code indexes `event['type']` and
parses `event['created_at']` unconditionally, so both fields are modelled as
present, with the timestamp already parsed to seconds. -/
structure AEvent where
  type : String
  created_at : Int
deriving DecidableEq

/-- The meaningful event kinds of `ActivityAnalyzer.get_last_activity_date`. -/
def meaningful_events : List String :=
  ["PushEvent", "PullRequestEvent", "IssueCommentEvent",
   "PullRequestReviewEvent", "CreateEvent"]

/-- Embedding of `ActivityAnalyzer.get_last_activity_date`: the timestamp of
the first meaningful event in the list, `None` when there is none. -/
def get_last_activity_date (events : List AEvent) : Option Int :=
  (events.find? (fun e => meaningful_events.contains e.type)).map
    (fun e => e.created_at)

/-- Embedding of `ActivityAnalyzer.is_contributor_inactive`: with no
meaningful activity at all the contributor counts as inactive; otherwise the
last activity is compared against the threshold cutoff. -/
def is_contributor_inactive (now : Int) (events : List AEvent)
    (days_threshold : Int) : Bool :=
  match get_last_activity_date events with
  | none => true
  | some d => decide (d < now - days_threshold * secondsPerDay)

/-- One issue as fetched from GitHub by `get_repo_issues` and walked by
`check_inactive_contributors`: `issue.get('assignee')` may be `None`, and a
present assignee dict may still lack a login, so the assignee is modelled as
an optional login. -/
structure RIssue where
  number : Nat
  title : String
  assignee : Option String
  html_url : String
deriving DecidableEq

/-- The detection dict built by `CookieLickingDetector.check_inactive_contributors`
for one stale assignee. -/
structure DetectionOut where
  issue_number : Nat
  issue_title : String
  assignee : String
  trust_score : Int
  tag : String
  days_inactive : Nat
  needs_reminder : Bool
  issue_url : String
deriving DecidableEq

/-- Embedding of `CookieLickingDetector.check_inactive_contributors`
(`src/api/services/real_github_service.py` lines 309-357): walk the issues,
skip unassigned ones and assignees whose trust computation errors, and flag
every assignee with no recent activity with a `needs_reminder` detection dict
(`days_inactive` is the constant 7). `user_events` stands for the per-user
event fetch `get_user_events`. The function consults no stored Detection
state: no reminder timestamp, grace period or unassignment enters it. -/
def check_inactive_contributors (now : Int) (user_events : String → List GHEvent)
    (issues : List RIssue) : List DetectionOut :=
  issues.filterMap (fun issue =>
    match issue.assignee with
    | none => none
    | some username =>
      match calculate_trust_score username now (user_events username) with
      | .error _ => none
      | .ok td =>
        if td.has_recent_activity then none
        else some { issue_number := issue.number
                    issue_title := issue.title
                    assignee := username
                    trust_score := td.trust_score
                    tag := td.tag
                    days_inactive := 7
                    needs_reminder := true
                    issue_url := issue.html_url })

/-- A stored `RealIssue` row, reduced to the fields the views read and write:
the issue number and the nullable assignee (`src/api/models.py`). -/
structure StoredIssue where
  issue_number : Nat
  assignee : Option String
deriving DecidableEq

/-- A stored `InactiveAssigneeDetection` row (`src/api/models.py` lines
325-342): keyed by (issue, assignee_username) via `unique_together`, with the
reminder and unassignment flags and timestamps. -/
structure DetectionRecord where
  issue_number : Nat
  assignee_username : String
  days_inactive : Nat
  trust_score_at_detection : Int
  reminder_sent : Bool
  reminder_sent_at : Option Int
  unassigned : Bool
  unassigned_at : Option Int
deriving DecidableEq

/-- Does this record carry the given (issue, assignee) key? -/
def detKey (n : Nat) (a : String) (r : DetectionRecord) : Bool :=
  r.issue_number == n && r.assignee_username == a

/-- The persistent state the views act on: the stored issues and detection
rows, plus the externally visible tracker effects — the log of comments
posted through `post_issue_comment` and the count of `PATCH` assignee writes
issued through `patch_issue_assignee`. -/
structure SystemState where
  issues : List StoredIssue
  detections : List DetectionRecord
  posted_comments : List (Nat × String)
  patch_writes : Nat
deriving DecidableEq

/-- `InactiveAssigneeDetection.objects.update_or_create(issue=..,
assignee_username=.., defaults={days_inactive, trust_score_at_detection})` in
the analyze view: an existing row for the key has only those two fields
refreshed (the reminder and unassignment flags are untouched); otherwise a
fresh row with default flags is appended. -/
def upsert_detection (dets : List DetectionRecord) (d : DetectionOut) :
    List DetectionRecord :=
  if dets.any (detKey d.issue_number d.assignee) then
    dets.map (fun r =>
      if detKey d.issue_number d.assignee r then
        { r with days_inactive := d.days_inactive,
                 trust_score_at_detection := d.trust_score }
      else r)
  else
    dets ++ [{ issue_number := d.issue_number
               assignee_username := d.assignee
               days_inactive := d.days_inactive
               trust_score_at_detection := d.trust_score
               reminder_sent := false
               reminder_sent_at := none
               unassigned := false
               unassigned_at := none }]

/-- Embedding of the `/api/analyze/` view `analyze_inactive_contributors`
(`src/api/real_views.py` lines 243-293): run the detector over the fetched
issues, then store each detection whose issue exists in the database
(`RealIssue.objects.get`; a missing issue is only logged). The view never
touches the reminder or unassignment flags and never calls the tracker's
write endpoints. -/
def analyze_inactive_contributors_view (now : Int)
    (user_events : String → List GHEvent) (gh_issues : List RIssue)
    (s : SystemState) : SystemState :=
  let dets := check_inactive_contributors now user_events gh_issues
  { s with detections := dets.foldl (fun acc d =>
      if s.issues.any (fun i => i.issue_number == d.issue_number) then
        upsert_detection acc d
      else acc) s.detections }

/-- The reminder body built by `CookieLickingDetector.send_reminder_comment`. -/
def reminder_text (assignee : String) : String :=
  "Hi @" ++ assignee ++ ", are you still working on this? 👋\n\nThis is a friendly reminder that you were assigned to this issue. If you need any help or would like to unassign yourself, please let us know!"

/-- `InactiveAssigneeDetection.objects.get_or_create(issue=..,
assignee_username=..)` in the reminder view: reuse the row for the key when
one exists, otherwise append a fresh row with default flags. -/
def get_or_create_detection (dets : List DetectionRecord) (n : Nat) (a : String) :
    List DetectionRecord :=
  if dets.any (detKey n a) then dets
  else dets ++ [{ issue_number := n
                  assignee_username := a
                  days_inactive := 0
                  trust_score_at_detection := 0
                  reminder_sent := false
                  reminder_sent_at := none
                  unassigned := false
                  unassigned_at := none }]

/-- Embedding of the `/api/remind/` view `send_reminder`
(`src/api/real_views.py` lines 296-357): `send_reminder_comment` posts the
reminder comment unconditionally — nothing consults `reminder_sent` before
posting. `post_ok` stands for the upstream comment call succeeding (token
present and no request error); on failure nothing is recorded. On success the
view looks the issue up and, when present, get-or-creates the detection row
and sets `reminder_sent` and `reminder_sent_at`. Returns the success flag and
the new state. -/
def send_reminder_view (issue_number : Nat) (assignee : String) (now : Int)
    (post_ok : Bool) (s : SystemState) : Bool × SystemState :=
  if post_ok then
    let s1 := { s with posted_comments :=
        s.posted_comments ++ [(issue_number, reminder_text assignee)] }
    if s1.issues.any (fun i => i.issue_number == issue_number) then
      let dets0 := get_or_create_detection s1.detections issue_number assignee
      let dets := dets0.map (fun r =>
        if detKey issue_number assignee r then
          { r with reminder_sent := true, reminder_sent_at := some now }
        else r)
      (true, { s1 with detections := dets })
    else (true, s1)
  else (false, s)

/-- Embedding of `RealGitHubService.patch_issue_assignee`
(`src/api/services/real_github_service.py` lines 167-187): without a token
it fails without any request; with a token it always issues the `PATCH`
request (one tracker write, counted), succeeding if the upstream call does.
It never reads the current assignee first. -/
def patch_issue_assignee (has_token : Bool) (patch_ok : Bool) (s : SystemState) :
    Bool × SystemState :=
  if has_token then (patch_ok, { s with patch_writes := s.patch_writes + 1 })
  else (false, s)

/-- `InactiveAssigneeDetection.objects.filter(issue=issue).first()` followed
by setting `unassigned` and `unassigned_at` in the unassign view: only the
first stored row for the issue — whatever its assignee — is marked. -/
def set_first_unassigned : List DetectionRecord → Nat → Int → List DetectionRecord
  | [], _, _ => []
  | r :: rs, n, now =>
      if r.issue_number == n then
        { r with unassigned := true, unassigned_at := some now } :: rs
      else r :: set_first_unassigned rs n now

/-- Embedding of the `/api/release/` view `unassign_inactive_user`
(`src/api/real_views.py` lines 360-424): call `patch_issue_assignee`
(through `CookieLickingDetector.unassign_inactive_user`); on success clear
the stored issue's assignee and mark the first detection row of the issue
unassigned; a missing stored issue still reports success. The view checks no
grace period and no reminder state before acting. -/
def unassign_inactive_user_view (issue_number : Nat) (now : Int)
    (has_token : Bool) (patch_ok : Bool) (s : SystemState) : Bool × SystemState :=
  let res := patch_issue_assignee has_token patch_ok s
  if res.1 then
    let s1 := res.2
    if s1.issues.any (fun i => i.issue_number == issue_number) then
      let issues := s1.issues.map (fun i =>
        if i.issue_number == issue_number then { i with assignee := none } else i)
      let dets := set_first_unassigned s1.detections issue_number now
      (true, { s1 with issues := issues, detections := dets })
    else (true, s1)
  else (false, res.2)

/-- The operations of the repository that write detection state, with their
external inputs as parameters: one reconciliation pass (`/api/analyze/`), one
reminder request (`/api/remind/`) and one release request (`/api/release/`). -/
inductive Op where
  | analyze : Int → (String → List GHEvent) → List RIssue → Op
  | remind : Nat → String → Int → Bool → Op
  | release : Nat → Int → Bool → Bool → Op

/-- Apply one operation to the stored state. -/
def apply_op (s : SystemState) : Op → SystemState
  | .analyze now ue gi => analyze_inactive_contributors_view now ue gi s
  | .remind n a now ok => (send_reminder_view n a now ok s).2
  | .release n now tk ok => (unassign_inactive_user_view n now tk ok s).2

/-- Rank of a detection row in the state order of the escalation machine:
pending 0, reminded 1, unassigned 2. -/
def detection_state_rank (r : DetectionRecord) : Nat :=
  if r.unassigned then 2 else if r.reminder_sent then 1 else 0

/-- Rank of the first row for a given (issue, assignee) key in a list of
detection rows; a missing row ranks 0 (no detection yet). -/
def rank_in (dets : List DetectionRecord) (n : Nat) (a : String) : Nat :=
  match dets.find? (detKey n a) with
  | some r => detection_state_rank r
  | none => 0

/-- Rank of the stored detection row for a given (issue, assignee) key. -/
def rank_at (s : SystemState) (n : Nat) (a : String) : Nat :=
  rank_in s.detections n a

/-- Concrete scenario for the grace-period claim: a detection for issue 1 /
assignee bob that is in the reminded state, with the reminder comment already
posted at time 1000000. -/
def c2State : SystemState :=
  { issues := [{ issue_number := 1, assignee := some "bob" }]
    detections := [{ issue_number := 1, assignee_username := "bob",
                     days_inactive := 7, trust_score_at_detection := 3,
                     reminder_sent := true, reminder_sent_at := some 1000000,
                     unassigned := false, unassigned_at := none }]
    posted_comments := [(1, reminder_text "bob")]
    patch_writes := 0 }

/-- The issue list GitHub returns on the next pass of the scenario: issue 1
still assigned to bob. -/
def c2Issues : List RIssue :=
  [{ number := 1, title := "T", assignee := some "bob", html_url := "u" }]

/-- The event fetch of the scenario: every user shows one old push (from
epoch second 0), so bob has no recent activity at evaluation time. -/
def c2UserEvents : String → List GHEvent :=
  fun _ => [{ type := some "PushEvent", createdAt := some 0 }]

/-- Evaluation time of the scenario: 4 days after the reminder was sent at
1000000, so the 3-day grace period has elapsed with no response. -/
def c2Now : Int := 1000000 + 4 * secondsPerDay

/-- Concrete state for the reminder-idempotence claim: the reminder for
issue 1 / bob was already sent at time 100 and its comment already posted. -/
def c3State : SystemState :=
  { issues := [{ issue_number := 1, assignee := some "bob" }]
    detections := [{ issue_number := 1, assignee_username := "bob",
                     days_inactive := 7, trust_score_at_detection := 0,
                     reminder_sent := true, reminder_sent_at := some 100,
                     unassigned := false, unassigned_at := none }]
    posted_comments := [(1, reminder_text "bob")]
    patch_writes := 0 }

/-- Concrete state for the release-idempotence claim: issue 1 is stored with
its assignee already cleared, and no tracker write has happened yet. -/
def c5State : SystemState :=
  { issues := [{ issue_number := 1, assignee := none }]
    detections := []
    posted_comments := []
    patch_writes := 0 }

lemma stepEvent_score (T : Int) (s : LoopState) (e : GHEvent) :
    (stepEvent T s e).score = s.score + eventPoints e := by
  rcases e with ⟨ty, ca⟩
  unfold stepEvent eventPoints
  rcases ty with _ | t <;> dsimp <;> split <;> (try split) <;>
    (try split) <;> (try split) <;> simp

lemma stepEvent_recent (T : Int) (s : LoopState) (e : GHEvent) :
    (stepEvent T s e).has_recent_activity =
      (s.has_recent_activity || eventIsRecent T e) := by
  rcases e with ⟨ty, ca⟩
  unfold stepEvent
  rcases ty with _ | t <;> dsimp <;> split <;> (try split) <;>
    (try split) <;> (try split) <;> simp_all

lemma foldl_step_score (T : Int) :
    ∀ (l : List GHEvent) (s : LoopState),
      (l.foldl (stepEvent T) s).score = s.score + (l.map eventPoints).sum := by
  intro l
  induction l with
  | nil => intro s; simp
  | cons e l ih =>
      intro s
      rw [List.foldl_cons, ih, stepEvent_score]
      simp [List.sum_cons]
      omega

lemma foldl_step_recent (T : Int) :
    ∀ (l : List GHEvent) (s : LoopState),
      (l.foldl (stepEvent T) s).has_recent_activity =
        (s.has_recent_activity || l.any (eventIsRecent T)) := by
  intro l
  induction l with
  | nil => intro s; simp
  | cons e l ih =>
      intro s
      rw [List.foldl_cons, ih, stepEvent_recent]
      simp [List.any_cons, Bool.or_assoc]

lemma trust_score_formula (u : String) (now : Int) (events : List GHEvent)
    (r : TrustResult) (h : calculate_trust_score u now events = .ok r) :
    r.trust_score = spec_trust_score now events := by
  unfold calculate_trust_score at h
  by_cases he : events.isEmpty
  · simp [he] at h
  · rw [if_neg he, Except.ok.injEq] at h
    subst h
    unfold spec_trust_score specHasRecentActivity base_score_constant
    rw [foldl_step_score, foldl_step_recent]
    simp only [Bool.false_or]
    split <;> omega

lemma eventPoints_nonneg (e : GHEvent) : 0 ≤ eventPoints e := by
  unfold eventPoints
  split <;> (try split) <;> (try split) <;> (try split) <;> omega

lemma eventPoints_le_three (e : GHEvent) : eventPoints e ≤ 3 := by
  unfold eventPoints
  split <;> (try split) <;> (try split) <;> (try split) <;> omega

lemma points_sum_nonneg : ∀ l : List GHEvent, 0 ≤ (l.map eventPoints).sum := by
  intro l
  induction l with
  | nil => simp
  | cons e l ih =>
      have := eventPoints_nonneg e
      simp [List.sum_cons]
      omega

lemma points_sum_le : ∀ l : List GHEvent,
    (l.map eventPoints).sum ≤ 3 * l.length := by
  intro l
  induction l with
  | nil => simp
  | cons e l ih =>
      have := eventPoints_le_three e
      simp [List.sum_cons, List.length_cons]
      omega

/-- C1: the claim that every invocation of the Trust Score Engine yields a
score in [0, upperBound] is false: `calculate_trust_score` never clamps, and
a single stale non-scoring event (here a `WatchEvent` from long ago) yields
the score -3, strictly below 0. -/
theorem claim_C1_counterexample :
    calculate_trust_score "u" 1000000 [{ type := some "WatchEvent", createdAt := some 0 }] =
      Except.ok { trust_score := -3, tag := "Inactive / Needs Follow-up",
                  push_count := 0, pr_count := 0, comment_count := 0,
                  has_recent_activity := false, total_events_analyzed := 1 } ∧
    ¬ (0 ≤ (-3 : Int)) := by
  exact ⟨by rfl, by decide⟩

/-- C1 (amended): on every nonempty input event list the Trust Score Engine
produces a score, and that score lies in [-3, 30] (at most ten events, at
most 3 points each, flat penalty 3); the empty list yields an error result
rather than a score, and no clamping to [0, 100] exists. -/
theorem claim_C1 (u : String) (now : Int) (events : List GHEvent)
    (r : TrustResult) (h : calculate_trust_score u now events = .ok r) :
    -3 ≤ r.trust_score ∧ r.trust_score ≤ 30 := by
  have hf := trust_score_formula u now events r h
  unfold spec_trust_score base_score_constant at hf
  have h1 := points_sum_nonneg (events.take 10)
  have h2 := points_sum_le (events.take 10)
  have h3 : (events.take 10).length ≤ 10 := by
    simp [List.length_take]
  split at hf <;> omega

/-- C1 witness: a single recent push event gives score 3, inside [-3, 30]. -/
theorem claim_C1_witness :
    -3 ≤ ({ trust_score := 3, tag := "Inactive / Needs Follow-up",
            push_count := 1, pr_count := 0, comment_count := 0,
            has_recent_activity := true, total_events_analyzed := 1 } :
            TrustResult).trust_score ∧
    ({ trust_score := 3, tag := "Inactive / Needs Follow-up",
       push_count := 1, pr_count := 0, comment_count := 0,
       has_recent_activity := true, total_events_analyzed := 1 } :
       TrustResult).trust_score ≤ 30 :=
  claim_C1 "u" 5 [{ type := some "PushEvent", createdAt := some 4 }] _ (by rfl)

/-- C6: whenever the engine produces a score, that score equals the fixed
base constant (0) plus the sum of the per-event-kind additive weights over
the examined events (the first ten), minus the flat penalty of 3 exactly when
`has_recent_activity` is false — the loop-with-accumulator code refines the
spec's closed formula `spec_trust_score`. -/
theorem claim_C6 (u : String) (now : Int) (events : List GHEvent)
    (r : TrustResult) (h : calculate_trust_score u now events = .ok r) :
    r.trust_score = spec_trust_score now events :=
  trust_score_formula u now events r h

/-- C6 witness: one recent push event; the produced score 3 equals the spec
formula's value. -/
theorem claim_C6_witness :
    ({ trust_score := 3, tag := "Inactive / Needs Follow-up",
       push_count := 1, pr_count := 0, comment_count := 0,
       has_recent_activity := true, total_events_analyzed := 1 } :
       TrustResult).trust_score =
      spec_trust_score 5 [{ type := some "PushEvent", createdAt := some 4 }] :=
  claim_C6 "u" 5 [{ type := some "PushEvent", createdAt := some 4 }] _ (by rfl)

/-- C7: the claim that an empty event list yields a normal result with
`hasRecentActivity = false` is false for the Trust Score Engine: on the
empty list `calculate_trust_score` returns the error dict
`{'success': False, 'error': 'No events found for user alice'}`, not a
result. -/
theorem claim_C7_counterexample :
    calculate_trust_score "alice" 0 [] =
      Except.error "No events found for user alice" := by
  rfl

/-- C7 (amended): on the empty event list the Trust Score Engine returns an
error result (`success: False`) instead of a normal result, while the
Activity Analyzer's `is_contributor_inactive` does treat the empty list as a
stale verdict (inactive = true) without error. -/
theorem claim_C7 (u : String) (now threshold : Int) :
    calculate_trust_score u now [] =
      Except.error ("No events found for user " ++ u) ∧
    is_contributor_inactive now [] threshold = true :=
  ⟨rfl, rfl⟩

/-- C8: the claim that the detector never raises on non-text payloads is
false: the first statement of `detect_claiming_patterns` is
`comment_body.lower()`, so an integer payload raises `AttributeError`
instead of returning the empty match list. -/
theorem claim_C8_counterexample :
    detect_claiming_patterns_py (PyVal.int 3) =
      Except.error "AttributeError: int object has no attribute lower" ∧
    detect_claiming_patterns_py (PyVal.int 3) ≠ Except.ok [] := by
  constructor
  · rfl
  · intro h
    simp [detect_claiming_patterns_py, py_lower] at h

/-- C8 (amended): on every string payload — including the empty string — the
detector terminates normally with the match list (no exception is possible),
and the empty string yields the empty list; only non-string payloads raise. -/
theorem claim_C8 (s : String) :
    detect_claiming_patterns_py (PyVal.str s) =
      Except.ok (detect_claiming_patterns s) ∧
    detect_claiming_patterns_py (PyVal.str "") = Except.ok [] := by
  exact ⟨rfl, by rfl⟩

/-- C9: the detector returns the empty match list on the empty string and on
text with no claim-intent phrase, and at least one match (the first
configured pattern) on "I'll take this one!". -/
theorem claim_C9 :
    detect_claiming_patterns "" = [] ∧
    detect_claiming_patterns "thanks for the report" = [] ∧
    detect_claiming_patterns "I'll take this one!" = [claimPattern1] := by
  exact ⟨by decide, by decide, by decide⟩

/-- C10: for every input string the list of matched pattern identifiers is a
subsequence (hence in configuration order) of the fixed six-element
claiming-pattern list, and is duplicate-free; the detector is a pure
function, so the same input always yields the same output. -/
theorem claim_C10 (s : String) :
    List.Sublist (detect_claiming_patterns s) claiming_patterns ∧
    (detect_claiming_patterns s).Nodup := by
  have hsub : List.Sublist (detect_claiming_patterns s) claiming_patterns :=
    List.filter_sublist claiming_patterns
  have hnd : claiming_patterns.Nodup := by decide
  exact ⟨hsub, hnd.sublist hsub⟩

/-- C2: at the concrete failing input — a Detection in the reminded state, 4
days past `reminder_sent_at` with no new activity from the assignee — the
next evaluation pass (`/api/analyze/`) merely refreshes `days_inactive` and
the stored trust score: the Detection is not transitioned to unassigned, no
`PATCH` tracker write (releaseClaim) happens, and the issue's assignee stays
set. Unassignment exists only as the separate manually invoked
`/api/release/` endpoint, contradicting the claim (and the docstring of
`check_inactive_contributors`, which promises "If 3 days pass with no new
comment or commit → unassign"). -/
theorem claim_C2 :
    (apply_op c2State (Op.analyze c2Now c2UserEvents c2Issues)).detections =
      [{ issue_number := 1, assignee_username := "bob", days_inactive := 7,
         trust_score_at_detection := 0, reminder_sent := true,
         reminder_sent_at := some 1000000, unassigned := false,
         unassigned_at := none }] ∧
    (apply_op c2State (Op.analyze c2Now c2UserEvents c2Issues)).issues =
      [{ issue_number := 1, assignee := some "bob" }] ∧
    (apply_op c2State (Op.analyze c2Now c2UserEvents c2Issues)).patch_writes = 0 := by
  exact ⟨rfl, rfl, rfl⟩

/-- C3: the claim that re-invoking the reminder action for a Detection that
already has a reminder record does not post a second comment is false: from
a state where the reminder for issue 1 / bob was already sent and its
comment posted, one more `/api/remind/` call leaves two posted reminder
comments — `send_reminder` never consults `reminder_sent` before posting. -/
theorem claim_C3_counterexample :
    ((send_reminder_view 1 "bob" 200 true c3State).2.posted_comments).length = 2 := by
  rfl

/-- C3 (amended): re-invoking the reminder action for a Detection whose
reminder record already exists posts one more reminder comment on every
successful invocation (the executor does not check before acting); only the
Detection record itself is idempotent — `get_or_create` keeps a single row
for the (issue, assignee) key, so the row count is unchanged. -/
theorem claim_C3 (s : SystemState) (n : Nat) (a : String) (now : Int)
    (hrec : s.detections.any (detKey n a) = true)
    (hiss : s.issues.any (fun i => i.issue_number == n) = true) :
    ((send_reminder_view n a now true s).2.posted_comments).length
        = s.posted_comments.length + 1 ∧
    (send_reminder_view n a now true s).2.detections.length
        = s.detections.length := by
  simp [send_reminder_view, get_or_create_detection, hrec, hiss]

/-- C3 witness: the amended statement at the concrete reminded state. -/
theorem claim_C3_witness :
    ((send_reminder_view 1 "bob" 200 true c3State).2.posted_comments).length
        = c3State.posted_comments.length + 1 ∧
    (send_reminder_view 1 "bob" 200 true c3State).2.detections.length
        = c3State.detections.length :=
  claim_C3 c3State 1 "bob" 200 (by decide) (by decide)

lemma map_clear_assignee_id (n : Nat) :
    ∀ (l : List StoredIssue), (∀ i ∈ l, i.issue_number = n → i.assignee = none) →
      l.map (fun i =>
        if i.issue_number = n then { i with assignee := none } else i) = l := by
  intro l
  induction l with
  | nil => intro _; rfl
  | cons i l ih =>
      intro h
      have h1 : (if i.issue_number = n then
          { i with assignee := none } else i) = i := by
        by_cases hn : i.issue_number = n
        · rcases i with ⟨num, asg⟩
          have := h ⟨num, asg⟩ (by simp) hn
          simp_all
        · simp [hn]
      simp only [List.map_cons, h1]
      rw [ih (fun j hj hjn => h j (List.mem_cons_of_mem _ hj) hjn)]

/-- C5: the claim that releasing an already-unassigned issue performs no
second tracker write is false: `patch_issue_assignee` sends the `PATCH`
unconditionally, so releasing issue 1 (whose stored assignee is already
cleared) twice performs two tracker writes — though the second call still
reports success. -/
theorem claim_C5_counterexample :
    (unassign_inactive_user_view 1 600 true true
        (unassign_inactive_user_view 1 500 true true c5State).2).1 = true ∧
    (unassign_inactive_user_view 1 600 true true
        (unassign_inactive_user_view 1 500 true true c5State).2).2.patch_writes
      = 2 := by
  exact ⟨rfl, rfl⟩

/-- C5 (amended): releasing an issue whose stored assignee is already cleared
returns a success outcome, never an error, and leaves the stored issues and
the posted comments unchanged — but it performs one more unconditional
`PATCH` tracker write on every invocation (the write is a tracker-side
no-op, not absent). -/
theorem claim_C5 (s : SystemState) (n : Nat) (now : Int)
    (hclear : ∀ i ∈ s.issues, i.issue_number = n → i.assignee = none) :
    (unassign_inactive_user_view n now true true s).1 = true ∧
    (unassign_inactive_user_view n now true true s).2.issues = s.issues ∧
    (unassign_inactive_user_view n now true true s).2.patch_writes
        = s.patch_writes + 1 ∧
    (unassign_inactive_user_view n now true true s).2.posted_comments
        = s.posted_comments := by
  unfold unassign_inactive_user_view patch_issue_assignee
  by_cases hany : s.issues.any (fun i => i.issue_number == n)
  · simp [hany, map_clear_assignee_id n s.issues hclear]
  · simp [hany]

/-- C5 witness: the amended statement at the concrete cleared-issue state. -/
theorem claim_C5_witness :
    (unassign_inactive_user_view 1 500 true true c5State).1 = true ∧
    (unassign_inactive_user_view 1 500 true true c5State).2.issues
        = c5State.issues ∧
    (unassign_inactive_user_view 1 500 true true c5State).2.patch_writes
        = c5State.patch_writes + 1 ∧
    (unassign_inactive_user_view 1 500 true true c5State).2.posted_comments
        = c5State.posted_comments :=
  claim_C5 c5State 1 500 (by decide)

lemma detection_state_rank_le_two (r : DetectionRecord) :
    detection_state_rank r ≤ 2 := by
  unfold detection_state_rank
  split
  · omega
  · split <;> omega

lemma rank_in_nil (n : Nat) (a : String) : rank_in [] n a = 0 := rfl

lemma rank_in_cons (r : DetectionRecord) (rs : List DetectionRecord)
    (n : Nat) (a : String) :
    rank_in (r :: rs) n a =
      if detKey n a r then detection_state_rank r else rank_in rs n a := by
  unfold rank_in
  by_cases h : detKey n a r
  · rw [List.find?_cons_of_pos _ h, if_pos h]
  · rw [List.find?_cons_of_neg _ h, if_neg h]

lemma rank_in_map_mono (n : Nat) (a : String)
    (f : DetectionRecord → DetectionRecord)
    (hkey : ∀ r, detKey n a (f r) = detKey n a r)
    (hrank : ∀ r, detection_state_rank r ≤ detection_state_rank (f r)) :
    ∀ dets, rank_in dets n a ≤ rank_in (dets.map f) n a := by
  intro dets
  induction dets with
  | nil => exact Nat.le_refl _
  | cons r rs ih =>
      rw [List.map_cons, rank_in_cons, rank_in_cons]
      by_cases h : detKey n a r
      · rw [if_pos h, if_pos (by rw [hkey r]; exact h)]
        exact hrank r
      · rw [if_neg h, if_neg (by rw [hkey r]; exact h)]
        exact ih

lemma rank_in_append_mono (n : Nat) (a : String)
    (new : List DetectionRecord) :
    ∀ dets, rank_in dets n a ≤ rank_in (dets ++ new) n a := by
  intro dets
  induction dets with
  | nil => exact Nat.zero_le _
  | cons r rs ih =>
      rw [List.cons_append, rank_in_cons, rank_in_cons]
      by_cases h : detKey n a r
      · rw [if_pos h, if_pos h]
      · rw [if_neg h, if_neg h]
        exact ih

lemma upsert_rank_mono (n : Nat) (a : String) (d : DetectionOut)
    (dets : List DetectionRecord) :
    rank_in dets n a ≤ rank_in (upsert_detection dets d) n a := by
  unfold upsert_detection
  by_cases hc : dets.any (detKey d.issue_number d.assignee)
  · rw [if_pos hc]
    apply rank_in_map_mono
    · intro r
      unfold detKey
      split <;> rfl
    · intro r
      split
      · exact Nat.le_refl _
      · exact Nat.le_refl _
  · rw [if_neg hc]
    exact rank_in_append_mono n a _ dets

lemma foldl_upsert_rank_mono (n : Nat) (a : String) (P : DetectionOut → Bool) :
    ∀ (ds : List DetectionOut) (acc : List DetectionRecord),
      rank_in acc n a ≤ rank_in (ds.foldl (fun acc d =>
        if P d then upsert_detection acc d else acc) acc) n a := by
  intro ds
  induction ds with
  | nil => intro acc; exact Nat.le_refl _
  | cons d ds ih =>
      intro acc
      rw [List.foldl_cons]
      refine Nat.le_trans ?_ (ih _)
      by_cases h : P d
      · rw [if_pos h]
        exact upsert_rank_mono n a d acc
      · rw [if_neg h]

lemma get_or_create_rank_mono (n : Nat) (a : String) (m : Nat) (b : String)
    (dets : List DetectionRecord) :
    rank_in dets n a ≤ rank_in (get_or_create_detection dets m b) n a := by
  unfold get_or_create_detection
  by_cases h : dets.any (detKey m b)
  · rw [if_pos h]
  · rw [if_neg h]
    exact rank_in_append_mono n a _ dets

lemma set_first_rank_mono (n : Nat) (a : String) (m : Nat) (now : Int) :
    ∀ dets, rank_in dets n a ≤ rank_in (set_first_unassigned dets m now) n a := by
  intro dets
  induction dets with
  | nil => exact Nat.le_refl _
  | cons r rs ih =>
      unfold set_first_unassigned
      by_cases h : r.issue_number == m
      · rw [if_pos h, rank_in_cons, rank_in_cons]
        by_cases hk : detKey n a r
        · rw [if_pos hk, if_pos (by simpa [detKey] using hk)]
          have h2 := detection_state_rank_le_two r
          have h3 : detection_state_rank
              { r with unassigned := true, unassigned_at := some now } = 2 := by
            unfold detection_state_rank
            simp
          omega
        · rw [if_neg hk, if_neg (by simpa [detKey] using hk)]
      · rw [if_neg h, rank_in_cons, rank_in_cons]
        by_cases hk : detKey n a r
        · rw [if_pos hk, if_pos hk]
        · rw [if_neg hk, if_neg hk]
          exact ih

lemma remind_map_rank_mono (n : Nat) (a : String) (m : Nat) (b : String)
    (now : Int) (dets : List DetectionRecord) :
    rank_in dets n a ≤ rank_in (dets.map (fun r =>
      if detKey m b r then
        { r with reminder_sent := true, reminder_sent_at := some now }
      else r)) n a := by
  apply rank_in_map_mono
  · intro r
    unfold detKey
    split <;> rfl
  · intro r
    split
    · rcases r with ⟨n1, a1, d1, t1, rs1, ra1, un1, ua1⟩
      cases un1 <;> cases rs1 <;> simp [detection_state_rank]
    · exact Nat.le_refl _

lemma apply_op_rank_mono (op : Op) (s : SystemState) (n : Nat) (a : String) :
    rank_at s n a ≤ rank_at (apply_op s op) n a := by
  cases op with
  | analyze now ue gi =>
      unfold apply_op analyze_inactive_contributors_view rank_at
      exact foldl_upsert_rank_mono n a _ _ s.detections
  | remind m b now ok =>
      unfold apply_op send_reminder_view rank_at
      cases ok with
      | false => simp
      | true =>
          by_cases h : s.issues.any (fun i => i.issue_number == m)
          · simp only [if_true, h]
            refine Nat.le_trans (get_or_create_rank_mono n a m b s.detections) ?_
            exact remind_map_rank_mono n a m b now _
          · simp [h]
  | release m now tk ok =>
      unfold apply_op unassign_inactive_user_view patch_issue_assignee rank_at
      cases tk with
      | false => simp
      | true =>
          cases ok with
          | false => simp
          | true =>
              by_cases h : s.issues.any (fun i => i.issue_number == m)
              · simp only [if_true, h]
                exact set_first_rank_mono n a m now s.detections
              · simp [h]

/-- C4: Detection state transitions are monotonic. With pending < reminded <
unassigned ranked 0 < 1 < 2, no sequence of the repository's operations — a
reconciliation pass (`/api/analyze/`, whose `update_or_create` only
refreshes `days_inactive` and the trust score), a reminder request
(`/api/remind/`, which only sets `reminder_sent`), or a release request
(`/api/release/`, which only sets `unassigned`) — ever lowers the rank of
the stored Detection row for any (issue, assignee) key; in particular an
unassigned Detection never becomes merely reminded. -/
theorem claim_C4 (ops : List Op) (s : SystemState) (n : Nat) (a : String) :
    rank_at s n a ≤ rank_at (ops.foldl apply_op s) n a := by
  induction ops generalizing s with
  | nil => exact Nat.le_refl _
  | cons op ops ih =>
      rw [List.foldl_cons]
      exact Nat.le_trans (apply_op_rank_mono op s n a) (ih (apply_op s op))
